import Mathlib

set_option maxRecDepth 100000

/-!
Verification development for the Wikiversity–Zotero citation comparator.

The definitions below are a shallow embedding of `citation_comparator.py`
and `run_comparison.py`.  Strings are modelled as Lean `String` / `List Char`
(the ASCII fragment of Python's `str.lower`, regex `\w` and `\s` classes),
similarity scores as exact rationals, Python's `difflib.SequenceMatcher`
as an executable functional program, and the two command-line entry points
as trace-producing functions (printed diagnostics and network calls become
trace steps; file input/output, which is neither network activity nor an
exit-code effect, is elided).
-/

/-! ## Character-level helpers (models of Python `str` / `re` primitives) -/

/-- Model of Python `str.lower` on the ASCII fragment: uppercase ASCII
letters are shifted to lowercase, every other character is unchanged. -/
def pyToLower (c : Char) : Char :=
  if 65 ≤ c.toNat ∧ c.toNat ≤ 90 then Char.ofNat (c.toNat + 32) else c

/-- Model of the regex class `\s` (Python whitespace: space, tab, newline,
carriage return, vertical tab, form feed). -/
def pyIsSpace (c : Char) : Bool :=
  c == ' ' || c == '\t' || c == '\n' || c == '\r' || c == '\x0b' || c == '\x0c'

/-- Model of the regex class `\w` on the ASCII fragment: letters, digits
and the underscore. -/
def pyIsWordChar (c : Char) : Bool :=
  c.isAlphanum || c == '_'

/-- Characters kept by `re.sub(r'[^\w\s]', '', _)`: word characters and
whitespace survive, everything else is deleted. -/
def keepChar (c : Char) : Bool :=
  pyIsWordChar c || pyIsSpace c

/-- Model of Python `str.split()` (no separator argument): split on runs
of whitespace, discarding empty fragments. -/
def wordsOf (l : List Char) : List (List Char) :=
  (l.splitOnP pyIsSpace).filter (fun w => !w.isEmpty)

/-- Model of Python `' '.join(ws)`: interleave a single space between the
fragments. -/
def unwordsCh : List (List Char) → List Char
  | [] => []
  | [w] => w
  | w :: ws => w ++ ' ' :: unwordsCh ws

/-- Character-list core of `normalize_title`: lowercase, strip characters
that are neither word characters nor whitespace, then collapse whitespace
runs to single spaces and trim the ends (faithful to
`' '.join(re.sub(r'[^\w\s]', '', title.lower()).split())`). -/
def normalizeL (l : List Char) : List Char :=
  unwordsCh (wordsOf ((l.map pyToLower).filter keepChar))

/-- `WikiversityZoteroComparator.normalize_title`: normalize a title for
comparison (lowercase, remove punctuation, collapse extra spaces). -/
def normalize_title (title : String) : String :=
  String.mk (normalizeL title.data)

/-! ## difflib.SequenceMatcher (used by `similarity_score`)

A faithful executable model of CPython's `difflib.SequenceMatcher` with
`isjunk = None`: `b2j` with the autojunk popularity filter, the
`find_longest_match` dynamic-programming loop with its tie-breaking and
`break`/`continue` structure, the left/right extension loops, and the
recursive decomposition into matching blocks whose sizes `ratio` sums. -/

/-- Indices (ascending) at which character `c` occurs in `b` — the raw
`b2j` table of `SequenceMatcher.__chain_b`. -/
def b2jIndices (b : List Char) (c : Char) : List Nat :=
  (List.range b.length).filter (fun j => b.get? j = some c)

/-- The `b2j` table after the autojunk step: when `len(b) >= 200`,
characters occurring more than `len(b) // 100 + 1` times are dropped from
the table (they remain matchable by the extension loops). -/
def mkB2j (b : List Char) (c : Char) : List Nat :=
  let idxs := b2jIndices b c
  if 200 ≤ b.length ∧ b.length / 100 + 1 < idxs.length then [] else idxs

/-- State of `find_longest_match`: the best block found so far. -/
structure FLM where
  besti : Nat
  bestj : Nat
  bestsize : Nat
deriving DecidableEq, Repr

/-- Lookup in the `j2len` association list with default `0`
(`j2len.get(j-1, 0)`). -/
def lookupD (m : List (Nat × Nat)) (k : Nat) : Nat :=
  match m.find? (fun p => p.fst == k) with
  | some p => p.snd
  | none => 0

/-- Inner loop of `find_longest_match` over `b2j[a[i]]`: skip `j < blo`
(`continue`), stop at the first `j >= bhi` (`break`, the index lists are
ascending), otherwise extend the diagonal run and update the best block
on a strict improvement. -/
def flmJs (blo bhi i : Nat) (j2len : List (Nat × Nat)) :
    List Nat → List (Nat × Nat) → FLM → List (Nat × Nat) × FLM
  | [], newj2len, st => (newj2len, st)
  | j :: js, newj2len, st =>
    if j < blo then flmJs blo bhi i j2len js newj2len st
    else if bhi ≤ j then (newj2len, st)
    else
      let k := (if j = 0 then 0 else lookupD j2len (j - 1)) + 1
      let st2 := if st.bestsize < k then FLM.mk (i + 1 - k) (j + 1 - k) k else st
      flmJs blo bhi i j2len js ((j, k) :: newj2len) st2

/-- Outer loop of `find_longest_match` over `i in range(alo, ahi)`,
threading the `j2len` row and the best block. -/
def flmLoop (b2j : Char → List Nat) (blo bhi : Nat) :
    List (Nat × Char) → List (Nat × Nat) → FLM → FLM
  | [], _, st => st
  | (i, c) :: rest, j2len, st =>
    let r := flmJs blo bhi i j2len (b2j c) [] st
    flmLoop b2j blo bhi rest r.fst r.snd

/-- The indexed slice `[(i, a[i]) | alo ≤ i < ahi]` of `a`. -/
def aSlice (a : List Char) (alo ahi : Nat) : List (Nat × Char) :=
  a.enum.filter (fun p => alo ≤ p.fst ∧ p.fst < ahi)

/-- Left extension loop of `find_longest_match` (with `isjunk = None` the
junk test never fires, so the block grows over any equal characters). -/
def extendLeft (a b : List Char) (alo blo : Nat) : Nat → FLM → FLM
  | 0, st => st
  | fuel + 1, st =>
    if alo < st.besti ∧ blo < st.bestj ∧ (a.get? (st.besti - 1)).isSome ∧
        a.get? (st.besti - 1) = b.get? (st.bestj - 1) then
      extendLeft a b alo blo fuel (FLM.mk (st.besti - 1) (st.bestj - 1) (st.bestsize + 1))
    else st

/-- Right extension loop of `find_longest_match`. -/
def extendRight (a b : List Char) (ahi bhi : Nat) : Nat → FLM → FLM
  | 0, st => st
  | fuel + 1, st =>
    if st.besti + st.bestsize < ahi ∧ st.bestj + st.bestsize < bhi ∧
        (a.get? (st.besti + st.bestsize)).isSome ∧
        a.get? (st.besti + st.bestsize) = b.get? (st.bestj + st.bestsize) then
      extendRight a b ahi bhi fuel (FLM.mk st.besti st.bestj (st.bestsize + 1))
    else st

/-- `SequenceMatcher.find_longest_match` on the window
`a[alo:ahi]` versus `b[blo:bhi]`. -/
def find_longest_match (a b : List Char) (b2j : Char → List Nat)
    (alo ahi blo bhi : Nat) : FLM :=
  let st1 := flmLoop b2j blo bhi (aSlice a alo ahi) [] (FLM.mk alo blo 0)
  let st2 := extendLeft a b alo blo (a.length + 1) st1
  extendRight a b ahi bhi (a.length + b.length + 1) st2

/-- Total size of the matching blocks of `get_matching_blocks` on a
window: the longest match splits the window into a left and a right
remainder, exactly as the work queue of `get_matching_blocks` does.  The
fuel argument strictly dominates the window perimeter, so it never runs
out when seeded with `|a| + |b| + 1`. -/
def msum (a b : List Char) (b2j : Char → List Nat) :
    Nat → Nat → Nat → Nat → Nat → Nat
  | 0, _, _, _, _ => 0
  | fuel + 1, alo, ahi, blo, bhi =>
    let st := find_longest_match a b b2j alo ahi blo bhi
    if st.bestsize = 0 then 0
    else
      (if alo < st.besti ∧ blo < st.bestj then msum a b b2j fuel alo st.besti blo st.bestj else 0)
      + st.bestsize
      + (if st.besti + st.bestsize < ahi ∧ st.bestj + st.bestsize < bhi then
          msum a b b2j fuel (st.besti + st.bestsize) ahi (st.bestj + st.bestsize) bhi
        else 0)

/-- `matches` of `SequenceMatcher.ratio`: the summed sizes of all
matching blocks of `a` against `b`. -/
def matchesTotal (a b : List Char) : Nat :=
  msum a b (mkB2j b) (a.length + b.length + 1) 0 a.length 0 b.length

/-- `SequenceMatcher.ratio`: `2.0 * M / T` where `T = len(a) + len(b)`,
and `1.0` when both sequences are empty (floating-point values are
modelled as exact rationals). -/
def ratio (a b : List Char) : ℚ :=
  if a.length + b.length = 0 then 1
  else mkRat (2 * (matchesTotal a b : Int)) (a.length + b.length)

/-- `WikiversityZoteroComparator.similarity_score`: similarity between two
strings via `SequenceMatcher(None, str1, str2).ratio()`. -/
def similarity_score (str1 str2 : String) : ℚ :=
  ratio str1.data str2.data

/-! ## Data model

Python's loosely-typed citation/item dictionaries become fixed-shape
records; `dict.get(key, '')` on a possibly-missing key becomes a field
defaulting to the empty string. -/

/-- The `data` payload of a Zotero library item (only the keys the
comparator reads: `title` and `url`). -/
structure ZoteroItemData where
  title : String := ""
  url : String := ""
deriving DecidableEq, Repr

/-- A Zotero library item as consumed by the matcher: a wrapper holding
its `data` dictionary. -/
structure ZoteroItem where
  data : ZoteroItemData
deriving DecidableEq, Repr

/-- A citation record as produced by the extractor (`_parse_cite_template`
or `_parse_citation_text`): all fields are strings, absent keys are the
empty string. -/
structure Citation where
  type : String := ""
  title : String := ""
  author : String := ""
  url : String := ""
  date : String := ""
  journal : String := ""
  raw_text : String := ""
  source_url : String := ""
deriving DecidableEq, Repr

/-- A match candidate produced by `find_matching_zotero_items`. -/
structure MatchCandidate where
  zotero_item : ZoteroItem
  title_similarity : ℚ
  url_match : Bool
deriving DecidableEq, Repr

/-- An entry of `results['found_in_zotero']`. -/
structure FoundEntry where
  wikiversity_citation : Citation
  zotero_match : MatchCandidate
deriving DecidableEq, Repr

/-- An entry of `results['potential_matches']`. -/
structure PotentialEntry where
  wikiversity_citation : Citation
  possible_matches : List MatchCandidate
deriving DecidableEq, Repr

/-- The `results['summary']` dictionary of `compare_citations`. -/
structure Summary where
  total_wikiversity_citations : Nat
  found_in_zotero : Nat
  missing_from_zotero : Nat
  potential_matches : Nat
deriving DecidableEq, Repr

/-- The result dictionary of `compare_citations`. -/
structure Results where
  missing_from_zotero : List Citation
  found_in_zotero : List FoundEntry
  potential_matches : List PotentialEntry
  summary : Summary
deriving DecidableEq, Repr

/-! ## Matcher (`find_matching_zotero_items`) -/

/-- The URL comparison inside `find_matching_zotero_items`: `url_match`
starts as `False` and is recomputed only when both raw URL strings are
truthy (non-empty); then it is exact equality or similarity above `0.9`. -/
def urlMatchCalc (wiki_url zot_url : String) : Bool :=
  if wiki_url ≠ "" ∧ zot_url ≠ "" then
    wiki_url == zot_url || decide (mkRat 9 10 < similarity_score wiki_url zot_url)
  else false

/-- Insert a candidate into a descending-by-`title_similarity` list,
after all candidates with an equal or larger key (stable). -/
def insertDesc (m : MatchCandidate) : List MatchCandidate → List MatchCandidate
  | [] => [m]
  | x :: xs =>
    if x.title_similarity < m.title_similarity then m :: x :: xs
    else x :: insertDesc m xs

/-- Model of `sorted(matches, key=lambda x: x['title_similarity'],
reverse=True)`: a stable sort is extensionally unique, so this stable
insertion sort coincides with Python's stable `sorted`. -/
def sortDesc (l : List MatchCandidate) : List MatchCandidate :=
  l.foldl (fun acc m => insertDesc m acc) []

/-- The item loop of `find_matching_zotero_items`, preserving library
order: items with an empty normalized title are skipped (`continue`), and
an item is appended as a candidate exactly when its title similarity
reaches the threshold or the URLs match. -/
def candidateScan (wiki_title cit_url : String) (threshold : Rat) :
    List ZoteroItem → List MatchCandidate
  | [] => []
  | item :: rest =>
    let zot_title := normalize_title item.data.title
    if zot_title = "" then candidateScan wiki_title cit_url threshold rest
    else
      let title_similarity := similarity_score wiki_title zot_title
      let url_match := urlMatchCalc cit_url item.data.url
      if threshold ≤ title_similarity ∨ url_match = true then
        MatchCandidate.mk item title_similarity url_match ::
          candidateScan wiki_title cit_url threshold rest
      else candidateScan wiki_title cit_url threshold rest

/-- `WikiversityZoteroComparator.find_matching_zotero_items`: find Zotero
items that might match a Wikiversity citation.  An empty normalized
citation title short-circuits to the empty list; otherwise the library is
scanned and the kept candidates are returned sorted by descending title
similarity. -/
def find_matching_zotero_items (zotero_items : List ZoteroItem)
    (wikiversity_citation : Citation) (threshold : Rat) : List MatchCandidate :=
  let wiki_title := normalize_title wikiversity_citation.title
  if wiki_title = "" then []
  else
    sortDesc (candidateScan wiki_title wikiversity_citation.url threshold zotero_items)

/-! ## Reconciler (`compare_citations`) -/

/-- The classification loop of `compare_citations` over the citation
list: no candidates puts a citation into `missing_from_zotero`; a top
candidate clearing the threshold-or-URL check puts it (with that
candidate) into `found_in_zotero`; otherwise the citation goes into
`potential_matches` with the top three candidates. -/
def classifyAll (zotero_items : List ZoteroItem) (threshold : Rat) :
    List Citation → List Citation × List FoundEntry × List PotentialEntry
  | [] => ([], [], [])
  | c :: cs =>
    let rest := classifyAll zotero_items threshold cs
    match find_matching_zotero_items zotero_items c threshold with
    | [] => (c :: rest.fst, rest.snd.fst, rest.snd.snd)
    | top :: others =>
      if threshold ≤ top.title_similarity ∨ top.url_match = true then
        (rest.fst, FoundEntry.mk c top :: rest.snd.fst, rest.snd.snd)
      else
        (rest.fst, rest.snd.fst,
          PotentialEntry.mk c ((top :: others).take 3) :: rest.snd.snd)

/-- `WikiversityZoteroComparator.compare_citations`: with an empty loaded
library or an empty citation list the method prints a hint and returns
the empty dictionary (modelled as `none`); otherwise it classifies every
citation and derives the summary counts from the constructed lists. -/
def compare_citations (zotero_items : List ZoteroItem)
    (wikiversity_citations : List Citation) (similarity_threshold : Rat) :
    Option Results :=
  if zotero_items.isEmpty then none
  else if wikiversity_citations.isEmpty then none
  else
    let r := classifyAll zotero_items similarity_threshold wikiversity_citations
    some (Results.mk r.fst r.snd.fst r.snd.snd
      (Summary.mk wikiversity_citations.length r.snd.fst.length r.fst.length
        r.snd.snd.length))

/-! ## Citation extractor (`_extract_cite_templates`, `_parse_cite_template`,
`_parse_citation_text`)

The regex scans are modelled character by character: the template pattern
is the literal open braces, a case-insensitive `cite`, one or more
non-close-brace characters, and the literal close braces, exactly as
`r'\{\{cite[^}]+\}\}'` with `IGNORECASE | DOTALL` matches (the pattern
contains no dot, so `DOTALL` is inert).  Brace characters are written with
their `\x7b` / `\x7d` escapes throughout. -/

/-- Python `str.strip()` (whitespace from both ends) on a character list. -/
def pyStripL (l : List Char) : List Char :=
  ((l.dropWhile pyIsSpace).reverse.dropWhile pyIsSpace).reverse

/-- Python `template.strip('\x7b\x7d')`: remove leading and trailing brace
characters. -/
def stripBraces (l : List Char) : List Char :=
  let isBrace := fun c => c == '\x7b' || c == '\x7d'
  ((l.dropWhile isBrace).reverse.dropWhile isBrace).reverse

/-- Python `parts[0].strip().replace('cite ', '')`: remove every
occurrence of the five characters `cite `, scanning left to right. -/
def replaceCiteSp : List Char → List Char
  | 'c' :: 'i' :: 't' :: 'e' :: ' ' :: rest => replaceCiteSp rest
  | c :: cs => c :: replaceCiteSp cs
  | [] => []

/-- One `key=value` step of the template field loop: parts without `=`
are skipped; otherwise the key is stripped and lowercased, the value
stripped, and the known keys are routed to their fields
(`author`/`last`/`first` concatenate with a space). -/
def applyField (cit : Citation) (part : List Char) : Citation :=
  if part.contains '=' then
    let key := String.mk ((pyStripL (part.takeWhile (fun c => c ≠ '='))).map pyToLower)
    let value := String.mk (pyStripL ((part.dropWhile (fun c => c ≠ '=')).drop 1))
    if key = "title" then { cit with title := value }
    else if key = "author" ∨ key = "last" ∨ key = "first" then
      { cit with author := if cit.author ≠ "" then cit.author ++ " " ++ value else value }
    else if key = "url" then { cit with url := value }
    else if key = "date" ∨ key = "year" then { cit with date := value }
    else if key = "journal" ∨ key = "website" then { cit with journal := value }
    else cit
  else cit

/-- `WikiversityZoteroComparator._parse_cite_template`: strip the braces,
split on `|`, take the first part (with `cite ` removed) as the type,
fold the remaining `key=value` parts into the record, and drop the record
when it acquired no title. -/
def _parse_cite_template (template : String) : Option Citation :=
  let stripped := stripBraces template.data
  match stripped.splitOnP (fun c => c == '|') with
  | [] => none
  | p0 :: rest =>
    let cite_type := String.mk (replaceCiteSp (pyStripL p0))
    let base : Citation :=
      { type := cite_type, raw_text := String.mk stripped }
    let citation := rest.foldl applyField base
    if citation.title ≠ "" then some citation else none

/-- Attempted match of `\{\{cite[^}]+\}\}` (case-insensitive) at the
head of the list: on success, the matched text and the remainder after
it. -/
def tryCiteAt : List Char → Option (List Char × List Char)
  | b1 :: b2 :: c1 :: c2 :: c3 :: c4 :: rest =>
    if b1 = '\x7b' ∧ b2 = '\x7b' ∧ pyToLower c1 = 'c' ∧ pyToLower c2 = 'i' ∧
        pyToLower c3 = 't' ∧ pyToLower c4 = 'e' then
      let body := rest.takeWhile (fun c => c ≠ '\x7d')
      let after := rest.dropWhile (fun c => c ≠ '\x7d')
      if body.isEmpty then none
      else
        match after with
        | e1 :: e2 :: rest2 =>
          if e1 = '\x7d' ∧ e2 = '\x7d' then
            some ([b1, b2, c1, c2, c3, c4] ++ body ++ [e1, e2], rest2)
          else none
        | _ => none
    else none
  | _ => none

/-- The `re.findall` scan for cite templates: leftmost, non-overlapping
matches, resuming after each match.  The fuel (seeded with the text
length) dominates the number of scan steps. -/
def scanCite : Nat → List Char → List (List Char)
  | 0, _ => []
  | _, [] => []
  | fuel + 1, c :: cs =>
    match tryCiteAt (c :: cs) with
    | some (m, rest2) => m :: scanCite fuel rest2
    | none => scanCite fuel cs

/-- `WikiversityZoteroComparator._extract_cite_templates`: every regex
match is parsed, and parses that return no record contribute nothing. -/
def _extract_cite_templates (page_content : String) : List Citation :=
  (scanCite page_content.data.length page_content.data).filterMap
    (fun m => _parse_cite_template (String.mk m))

/-- The character class of the URL regex
`r'https?://[^\s<>"\x7b\x7d|\\^`\[\]]+'`: anything but whitespace and the
listed punctuation. -/
def urlAllowed (c : Char) : Bool :=
  ¬ (pyIsSpace c || c == '<' || c == '>' || c == '"' || c == '\x7b' ||
     c == '\x7d' || c == '|' || c == '\\' || c == '^' || c == '`' ||
     c == '[' || c == ']')

/-- Attempted match of the URL pattern at the head of the list: the
literal `http`, an optional `s`, the literal `://`, then a maximal
non-empty run of allowed characters. -/
def tryUrlAt (l : List Char) : Option String :=
  match l with
  | 'h' :: 't' :: 't' :: 'p' :: rest =>
    match rest with
    | 's' :: ':' :: '/' :: '/' :: r2 =>
      let run := r2.takeWhile urlAllowed
      if run.isEmpty then none else some (String.mk ("https://".data ++ run))
    | ':' :: '/' :: '/' :: r2 =>
      let run := r2.takeWhile urlAllowed
      if run.isEmpty then none else some (String.mk ("http://".data ++ run))
    | _ => none
  | _ => none

/-- The first (leftmost) URL-shaped substring of the text, as
`re.findall(url_pattern, text)[0]`. -/
def firstUrl : List Char → Option String
  | [] => none
  | c :: cs =>
    match tryUrlAt (c :: cs) with
    | some u => some u
    | none => firstUrl cs

/-- Attempted match of `r'\b(19|20)\d{2}\b'` at the head of the list,
given the character just before it (if any).  On success the value is the
text of the capturing group: `re.findall` with one group returns the
group, that is the two characters `19` or `20`, not the full four-digit
match. -/
def yearAt (prev : Option Char) (l : List Char) : Option String :=
  match l with
  | d1 :: d2 :: d3 :: d4 :: rest =>
    if (match prev with | none => true | some p => !pyIsWordChar p) &&
        ((d1 == '1' && d2 == '9') || (d1 == '2' && d2 == '0')) &&
        d3.isDigit && d4.isDigit &&
        (match rest with | [] => true | r :: _ => !pyIsWordChar r) then
      some (String.mk [d1, d2])
    else none
  | _ => none

/-- Scan for the first year match, remembering the previous character for
the word-boundary test. -/
def firstYearAux (prev : Option Char) : List Char → Option String
  | [] => none
  | c :: cs =>
    match yearAt prev (c :: cs) with
    | some y => some y
    | none => firstYearAux (some c) cs

/-- `WikiversityZoteroComparator._parse_citation_text`: parse a plain text
citation into the structured record — the first URL-shaped substring, the
first year-pattern group, and the stripped text before the first period
when that stripped prefix is longer than ten characters. -/
def _parse_citation_text (text : String) (source_url : String) : Citation :=
  let url := (firstUrl text.data).getD ""
  let date := (firstYearAux none text.data).getD ""
  let title :=
    if text.data.contains '.' then
      let potential_title := String.mk (pyStripL (text.data.takeWhile (fun c => c ≠ '.')))
      if 10 < potential_title.length then potential_title else ""
    else ""
  { title := title, url := url, date := date, raw_text := text,
    source_url := source_url }

/-! ## Command-line entry points (`run_comparison.main`,
`citation_comparator.main`)

Control-flow models: printed diagnostics become `Step.msg` entries,
network calls become `Step.net` entries, and the returned number is the
process exit status.  Report-file writing and the GitHub-output file are
neither network activity nor diagnostics and are elided. -/

/-- An observable step of an entry-point run. -/
inductive Step where
  | msg : String → Step
  | net : String → Step
deriving DecidableEq, Repr

/-- Whether a step is network activity. -/
def Step.isNet : Step → Bool
  | Step.msg _ => false
  | Step.net _ => true

/-- The environment variables the entry points read. -/
structure Env where
  zotero_user_id : Option String
  zotero_api_key : Option String
deriving DecidableEq, Repr

/-- Python truthiness test `not os.getenv(...)`: the variable is falsy
when unset or empty. -/
def credFalsy : Option String → Bool
  | none => true
  | some s => s.isEmpty

/-- `run_comparison.main`: after loading `config.yaml` (file input, no
network), missing credentials abort with exit status 1 before any network
activity; otherwise the Zotero library is loaded over the network, and
only then is the configured page list checked, an empty list aborting
with exit status 1; otherwise the pages are fetched, the comparison runs
and the run exits 0. -/
def run_comparison_main (env : Env) (wikiversity_urls : List String) :
    Nat × List Step :=
  if credFalsy env.zotero_user_id || credFalsy env.zotero_api_key then
    (1, [Step.msg "❌ Error: Missing Zotero credentials",
         Step.msg "Please set ZOTERO_USER_ID and ZOTERO_API_KEY environment variables"])
  else
    let pre := [Step.msg "🚀 Starting Wikiversity-Zotero comparison...",
                Step.msg "📚 Loading Zotero library...",
                Step.net "zotero.everything(zotero.items())",
                Step.msg "🌐 Extracting Wikiversity citations..."]
    if wikiversity_urls.isEmpty then
      (1, pre ++ [Step.msg "❌ Error: No Wikiversity URLs configured"])
    else
      (0, pre ++ wikiversity_urls.map Step.net ++
          [Step.msg "🔍 Comparing citations...", Step.msg "✅ Comparison complete!"])

/-- `citation_comparator.main` as invoked by the
`if __name__ == "__main__": main()` footer: placeholder credentials print
a diagnostic and `return` (no network), the hardcoded placeholder URL
list likewise; since the footer never passes the return value to
`exit()`, the process exit status is 0 on every path. -/
def citation_comparator_main (env : Env) : Nat × List Step :=
  let uid := env.zotero_user_id.getD "YOUR_USER_ID_HERE"
  let key := env.zotero_api_key.getD "YOUR_API_KEY_HERE"
  let urls := ["https://en.wikiversity.org/wiki/YOUR_PAGE_HERE"]
  if uid = "YOUR_USER_ID_HERE" ∨ key = "YOUR_API_KEY_HERE" then
    (0, [Step.msg "Please set your Zotero credentials in the script or as environment variables:",
         Step.msg "ZOTERO_USER_ID and ZOTERO_API_KEY"])
  else if urls.isEmpty ∨ urls.head? = some "https://en.wikiversity.org/wiki/YOUR_PAGE_HERE" then
    (0, [Step.msg "Please add your Wikiversity URLs to the WIKIVERSITY_URLS list"])
  else
    (0, [Step.net "zotero.everything(zotero.items())"] ++ urls.map Step.net ++
        [Step.msg "comparison, printing and export"])

/-! ## Supporting lemmas -/

/-- Membership in an insertion step of the stable descending sort. -/
theorem mem_insertDesc (m x : MatchCandidate) :
    ∀ l : List MatchCandidate, x ∈ insertDesc m l ↔ x = m ∨ x ∈ l := by
  intro l
  induction l with
  | nil => simp [insertDesc]
  | cons y ys ih =>
    by_cases h : y.title_similarity < m.title_similarity
    · simp [insertDesc, h]
    · simp only [insertDesc, if_neg h, List.mem_cons, ih]
      tauto

/-- Membership in the fold underlying `sortDesc`. -/
theorem mem_sortDesc_foldl (x : MatchCandidate) :
    ∀ (l acc : List MatchCandidate),
      x ∈ l.foldl (fun a m => insertDesc m a) acc ↔ x ∈ acc ∨ x ∈ l := by
  intro l
  induction l with
  | nil => simp
  | cons m ms ih =>
    intro acc
    simp only [List.foldl_cons, ih, mem_insertDesc, List.mem_cons]
    tauto

/-- Sorting does not change the set of candidates. -/
theorem mem_sortDesc (x : MatchCandidate) (l : List MatchCandidate) :
    x ∈ sortDesc l ↔ x ∈ l := by
  simp [sortDesc, mem_sortDesc_foldl]

/-- Every candidate the item loop keeps reaches the threshold or matches
by URL. -/
theorem candidateScan_mem (wt cu : String) (t : Rat) :
    ∀ (items : List ZoteroItem) (m : MatchCandidate),
      m ∈ candidateScan wt cu t items →
      t ≤ m.title_similarity ∨ m.url_match = true := by
  intro items
  induction items with
  | nil => intro m hm; simp [candidateScan] at hm
  | cons item rest ih =>
    intro m hm
    by_cases h0 : normalize_title item.data.title = ""
    · exact ih m (by simpa [candidateScan, h0] using hm)
    · by_cases hk : t ≤ similarity_score wt (normalize_title item.data.title) ∨
        urlMatchCalc cu item.data.url = true
      · rw [candidateScan, if_neg h0] at hm
        simp only [if_pos hk, List.mem_cons] at hm
        rcases hm with rfl | hm
        · exact hk
        · exact ih m hm
      · rw [candidateScan, if_neg h0] at hm
        simp only [if_neg hk] at hm
        exact ih m hm

/-- Every candidate returned by the matcher reaches the threshold or
matches by URL. -/
theorem find_matching_mem (items : List ZoteroItem) (cit : Citation) (t : Rat)
    (m : MatchCandidate) (hm : m ∈ find_matching_zotero_items items cit t) :
    t ≤ m.title_similarity ∨ m.url_match = true := by
  by_cases h0 : normalize_title cit.title = ""
  · simp [find_matching_zotero_items, h0] at hm
  · rw [find_matching_zotero_items] at hm
    simp only [if_neg h0, mem_sortDesc] at hm
    exact candidateScan_mem _ _ _ _ m hm

/-- The matcher returns no candidates for a citation whose normalized
title is empty, whatever the library is. -/
theorem find_matching_empty_title (items : List ZoteroItem) (cit : Citation)
    (t : Rat) (ht : normalize_title cit.title = "") :
    find_matching_zotero_items items cit t = [] := by
  simp [find_matching_zotero_items, ht]

/-- The classification loop never fills the `potential_matches` list: a
non-empty candidate list has a head that was already filtered by the very
check the reconciler repeats. -/
theorem classify_potential_nil (items : List ZoteroItem) (t : Rat) :
    ∀ cs : List Citation, (classifyAll items t cs).snd.snd = [] := by
  intro cs
  induction cs with
  | nil => rfl
  | cons c cs ih =>
    rw [classifyAll]
    rcases hm : find_matching_zotero_items items c t with _ | ⟨top, others⟩
    · simpa using ih
    · have htop : t ≤ top.title_similarity ∨ top.url_match = true :=
        find_matching_mem items c t top (by rw [hm]; exact List.mem_cons_self _ _)
      simp only [if_pos htop]
      simpa using ih

/-- The classification loop distributes the input citations over the
three result lists: concatenated back together they are a permutation of
the input. -/
theorem classify_perm (items : List ZoteroItem) (t : Rat) :
    ∀ cs : List Citation,
      ((classifyAll items t cs).fst ++
        (classifyAll items t cs).snd.fst.map FoundEntry.wikiversity_citation ++
        (classifyAll items t cs).snd.snd.map PotentialEntry.wikiversity_citation).Perm cs := by
  intro cs
  induction cs with
  | nil => simp [classifyAll]
  | cons c cs ih =>
    rw [classifyAll]
    rcases hm : find_matching_zotero_items items c t with _ | ⟨top, others⟩
    · simpa using ih.cons c
    · by_cases htop : t ≤ top.title_similarity ∨ top.url_match = true
      · simp only [if_pos htop, List.map_cons]
        refine List.Perm.trans ?_ (ih.cons c)
        simp
      · simp only [if_neg htop, List.map_cons]
        refine List.Perm.trans ?_ (ih.cons c)
        simp only [List.append_assoc]
        exact (List.Perm.append_left _ List.perm_middle).trans List.perm_middle

/-- A citation with an empty normalized title always lands in the
`missing_from_zotero` component of the classification loop. -/
theorem classify_empty_title_missing (items : List ZoteroItem) (t : Rat)
    (cit : Citation) (ht : normalize_title cit.title = "") :
    ∀ cs : List Citation, cit ∈ cs → cit ∈ (classifyAll items t cs).fst := by
  intro cs
  induction cs with
  | nil => intro h; cases h
  | cons c cs ih =>
    intro hmem
    rw [classifyAll]
    rcases List.mem_cons.mp hmem with rfl | hmem
    · rw [find_matching_empty_title items cit t ht]
      exact List.mem_cons_self _ _
    · rcases hm : find_matching_zotero_items items c t with _ | ⟨top, others⟩
      · exact List.mem_cons_of_mem _ (ih hmem)
      · by_cases htop : t ≤ top.title_similarity ∨ top.url_match = true
        · simpa [if_pos htop] using ih hmem
        · simpa [if_neg htop] using ih hmem

/-- Unfolding `compare_citations` on a successful run. -/
theorem compare_citations_eq (items : List ZoteroItem) (cits : List Citation)
    (t : Rat) (r : Results) (h : compare_citations items cits t = some r) :
    r = Results.mk (classifyAll items t cits).fst (classifyAll items t cits).snd.fst
      (classifyAll items t cits).snd.snd
      (Summary.mk cits.length (classifyAll items t cits).snd.fst.length
        (classifyAll items t cits).fst.length (classifyAll items t cits).snd.snd.length) := by
  by_cases h1 : items.isEmpty
  · rw [compare_citations, if_pos h1] at h; cases h
  · by_cases h2 : cits.isEmpty
    · rw [compare_citations, if_neg h1, if_pos h2] at h; cases h
    · rw [compare_citations, if_neg h1, if_neg h2] at h
      exact (Option.some.inj h).symm

/-- The occurrence table of the empty sequence is empty. -/
theorem mkB2j_nil (c : Char) : mkB2j [] c = [] := by
  simp [mkB2j, b2jIndices]

/-- With an everywhere-empty occurrence table the main matching loop
never improves on its initial state. -/
theorem flmLoop_nil_table (b2j : Char → List Nat) (hb : ∀ c, b2j c = [])
    (blo bhi : Nat) :
    ∀ (l : List (Nat × Char)) (j2 : List (Nat × Nat)) (st : FLM),
      flmLoop b2j blo bhi l j2 st = st := by
  intro l
  induction l with
  | nil => intro j2 st; rfl
  | cons p rest ih =>
    intro j2 st
    rcases p with ⟨i, c⟩
    rw [flmLoop, hb c]
    exact ih [] st

/-- An empty left sequence has no matching blocks. -/
theorem matchesTotal_nil_left (b : List Char) : matchesTotal [] b = 0 := by
  have hsl : aSlice [] 0 0 = [] := rfl
  have hflm : find_longest_match [] b (mkB2j b) 0 0 0 b.length = FLM.mk 0 0 0 := by
    rw [find_longest_match, hsl]
    rw [show flmLoop (mkB2j b) 0 b.length [] [] (FLM.mk 0 0 0) = FLM.mk 0 0 0 from rfl]
    rw [show extendLeft [] b 0 0 ([] : List Char).length.succ (FLM.mk 0 0 0) = FLM.mk 0 0 0 by
      rw [extendLeft]; simp]
    rw [extendRight]
    simp
  rw [matchesTotal, msum]
  simp only [List.length_nil]
  rw [hflm]
  simp

/-- An empty right sequence has no matching blocks. -/
theorem matchesTotal_nil_right (a : List Char) : matchesTotal a [] = 0 := by
  have hflm : find_longest_match a [] (mkB2j []) 0 a.length 0 0 = FLM.mk 0 0 0 := by
    rw [find_longest_match]
    rw [flmLoop_nil_table (mkB2j []) mkB2j_nil 0 0 (aSlice a 0 a.length) [] (FLM.mk 0 0 0)]
    rw [show extendLeft a [] 0 0 (a.length + 1) (FLM.mk 0 0 0) = FLM.mk 0 0 0 by
      rw [extendLeft]; simp]
    rw [extendRight]
    simp
  rw [matchesTotal, msum]
  simp only [List.length_nil]
  rw [hflm]
  simp

/-- The ratio of the empty sequence against any sequence is the same in
both argument orders. -/
theorem ratio_nil_comm (b : List Char) : ratio [] b = ratio b [] := by
  by_cases hb : b.length = 0
  · rw [List.length_eq_zero] at hb
    rw [hb]
  · rw [ratio, ratio, matchesTotal_nil_left, matchesTotal_nil_right]
    simp [hb]

/-- Shifting an uppercase ASCII code by 32 gives back exactly that code
plus 32 (the lowercase range is in the valid scalar range). -/
theorem ofNat_add32_toNat (n : Nat) (h1 : 65 ≤ n) (h2 : n ≤ 90) :
    (Char.ofNat (n + 32)).toNat = n + 32 := by
  interval_cases n <;> decide

/-- Lowercasing is idempotent. -/
theorem pyToLower_idem (c : Char) : pyToLower (pyToLower c) = pyToLower c := by
  have expand : pyToLower (pyToLower c) =
      if 65 ≤ (pyToLower c).toNat ∧ (pyToLower c).toNat ≤ 90 then
        Char.ofNat ((pyToLower c).toNat + 32)
      else pyToLower c := rfl
  by_cases h : 65 ≤ c.toNat ∧ c.toNat ≤ 90
  · have hval : (pyToLower c).toNat = c.toNat + 32 := by
      rw [pyToLower, if_pos h]
      exact ofNat_add32_toNat c.toNat h.1 h.2
    rw [expand, if_neg (by rw [hval]; omega)]
  · have hval : pyToLower c = c := by rw [pyToLower, if_neg h]
    rw [expand, hval, if_neg h]

/-- A whitespace-free fragment is a single split fragment. -/
theorem splitOnP_spacefree (w : List Char) (h : ∀ c ∈ w, pyIsSpace c = false) :
    w.splitOnP pyIsSpace = [w] := by
  induction w with
  | nil => exact List.splitOnP_nil pyIsSpace
  | cons a w ih =>
    have ha : pyIsSpace a = false := h a (List.mem_cons_self a w)
    rw [List.splitOnP_cons, if_neg (by simp [ha]),
      ih (fun c hc => h c (List.mem_cons_of_mem a hc)), List.modifyHead_cons]

/-- Splitting a whitespace-free fragment followed by a space peels off
exactly that fragment. -/
theorem splitOnP_word_append (w rest : List Char)
    (h : ∀ c ∈ w, pyIsSpace c = false) :
    (w ++ ' ' :: rest).splitOnP pyIsSpace = w :: rest.splitOnP pyIsSpace := by
  induction w with
  | nil =>
    rw [List.nil_append, List.splitOnP_cons, if_pos]
    rfl
  | cons a w ih =>
    have ha : pyIsSpace a = false := h a (List.mem_cons_self a w)
    rw [List.cons_append, List.splitOnP_cons, if_neg (by simp [ha]),
      ih (fun c hc => h c (List.mem_cons_of_mem a hc)), List.modifyHead_cons]

/-- Characters of split fragments come from the input and are not
whitespace. -/
theorem splitOnP_mem_chars (xs : List Char) :
    ∀ w ∈ xs.splitOnP pyIsSpace, ∀ c ∈ w, c ∈ xs ∧ pyIsSpace c = false := by
  induction xs with
  | nil =>
    intro w hw c hc
    rw [List.splitOnP_nil] at hw
    rcases List.mem_singleton.mp hw with rfl
    cases hc
  | cons x xs ih =>
    intro w hw c hc
    by_cases hx : pyIsSpace x
    · rw [List.splitOnP_cons, if_pos hx] at hw
      rcases List.mem_cons.mp hw with rfl | hw
      · cases hc
      · rcases ih w hw c hc with ⟨hmem, hsp⟩
        exact ⟨List.mem_cons_of_mem x hmem, hsp⟩
    · rw [List.splitOnP_cons, if_neg (by simpa using hx)] at hw
      obtain ⟨h0, t0, hsplit⟩ : ∃ h0 t0, xs.splitOnP pyIsSpace = h0 :: t0 := by
        rcases hsp : xs.splitOnP pyIsSpace with _ | ⟨h0, t0⟩
        · exact absurd hsp (List.splitOnP_ne_nil _ _)
        · exact ⟨h0, t0, rfl⟩
      rw [hsplit, List.modifyHead_cons] at hw
      rcases List.mem_cons.mp hw with rfl | hw
      · rcases List.mem_cons.mp hc with rfl | hc
        · exact ⟨List.mem_cons_self c xs, by simpa using hx⟩
        · rcases ih h0 (by rw [hsplit]; exact List.mem_cons_self h0 t0) c hc with ⟨hmem, hsp⟩
          exact ⟨List.mem_cons_of_mem x hmem, hsp⟩
      · rcases ih w (by rw [hsplit]; exact List.mem_cons_of_mem h0 hw) c hc with ⟨hmem, hsp⟩
        exact ⟨List.mem_cons_of_mem x hmem, hsp⟩

/-- The fragments produced by `wordsOf` are non-empty, whitespace-free,
and made of input characters. -/
theorem wordsOf_mem_chars (xs : List Char) :
    ∀ w ∈ wordsOf xs, w ≠ [] ∧ ∀ c ∈ w, c ∈ xs ∧ pyIsSpace c = false := by
  intro w hw
  rw [wordsOf] at hw
  rcases List.mem_filter.mp hw with ⟨hmem, hne⟩
  refine ⟨by simpa using hne, splitOnP_mem_chars xs w hmem⟩

/-- Characters of a joined fragment list are the space separator or
characters of some fragment. -/
theorem mem_unwordsCh (ws : List (List Char)) :
    ∀ c ∈ unwordsCh ws, c = ' ' ∨ ∃ w ∈ ws, c ∈ w := by
  induction ws with
  | nil => intro c hc; cases hc
  | cons w ws ih =>
    cases ws with
    | nil =>
      intro c hc
      have hu : unwordsCh [w] = w := rfl
      rw [hu] at hc
      exact Or.inr ⟨w, List.mem_singleton_self w, hc⟩
    | cons w2 ws2 =>
      intro c hc
      have hu : unwordsCh (w :: w2 :: ws2) = w ++ ' ' :: unwordsCh (w2 :: ws2) := rfl
      rw [hu] at hc
      rcases List.mem_append.mp hc with hc | hc
      · exact Or.inr ⟨w, List.mem_cons_self _ _, hc⟩
      · rcases List.mem_cons.mp hc with rfl | hc
        · exact Or.inl rfl
        · rcases ih c hc with h | ⟨v, hv, hcv⟩
          · exact Or.inl h
          · exact Or.inr ⟨v, List.mem_cons_of_mem w hv, hcv⟩

/-- Splitting the join of non-empty whitespace-free fragments recovers
exactly the fragments. -/
theorem wordsOf_unwordsCh (ws : List (List Char))
    (h : ∀ w ∈ ws, w ≠ [] ∧ ∀ c ∈ w, pyIsSpace c = false) :
    wordsOf (unwordsCh ws) = ws := by
  induction ws with
  | nil => rfl
  | cons w ws ih =>
    rcases h w (List.mem_cons_self w ws) with ⟨hne, hsp⟩
    have hkeep : (!w.isEmpty) = true := by
      rcases w with _ | ⟨a, w⟩
      · exact absurd rfl hne
      · rfl
    cases ws with
    | nil =>
      have hu : unwordsCh [w] = w := rfl
      rw [hu, wordsOf, splitOnP_spacefree w hsp, List.filter_cons, if_pos hkeep]
      rfl
    | cons w2 ws2 =>
      have hu : unwordsCh (w :: w2 :: ws2) = w ++ ' ' :: unwordsCh (w2 :: ws2) := rfl
      rw [hu, wordsOf, splitOnP_word_append w _ hsp, List.filter_cons, if_pos hkeep]
      have ih2 := ih (fun v hv => h v (List.mem_cons_of_mem w hv))
      rw [wordsOf] at ih2
      rw [ih2]

/-- A map whose function fixes every element of a list is the identity on
that list. -/
theorem map_fix_eq_self (f : Char → Char) :
    ∀ l : List Char, (∀ c ∈ l, f c = c) → l.map f = l := by
  intro l
  induction l with
  | nil => intro _; rfl
  | cons a l ih =>
    intro h
    rw [List.map_cons, h a (List.mem_cons_self a l),
      ih (fun c hc => h c (List.mem_cons_of_mem a hc))]

/-- Every character of a normalized title is already lowercased and kept
by the punctuation filter. -/
theorem normalizeL_chars (l : List Char) :
    ∀ c ∈ normalizeL l, pyToLower c = c ∧ keepChar c = true := by
  intro c hc
  rw [normalizeL] at hc
  rcases mem_unwordsCh _ c hc with rfl | ⟨w, hw, hcw⟩
  · exact ⟨by decide, by decide⟩
  · rcases (wordsOf_mem_chars _ w hw).2 c hcw with ⟨hmem, _⟩
    rcases List.mem_filter.mp hmem with ⟨hmap, hkeep⟩
    rcases List.mem_map.mp hmap with ⟨c0, _, rfl⟩
    exact ⟨pyToLower_idem c0, hkeep⟩

/-- The lowercase-and-filter stage fixes a normalized title. -/
theorem stage1_normalizeL (l : List Char) :
    ((normalizeL l).map pyToLower).filter keepChar = normalizeL l := by
  rw [map_fix_eq_self pyToLower _ (fun c hc => (normalizeL_chars l c hc).1)]
  exact List.filter_eq_self.mpr (fun c hc => (normalizeL_chars l c hc).2)

/-- Normalization of titles is idempotent on character lists. -/
theorem normalizeL_idem (l : List Char) : normalizeL (normalizeL l) = normalizeL l := by
  conv_lhs => rw [normalizeL, stage1_normalizeL]
  conv_lhs => rw [normalizeL]
  rw [wordsOf_unwordsCh _ (fun w hw =>
    ⟨(wordsOf_mem_chars _ w hw).1,
     fun c hc => ((wordsOf_mem_chars _ w hw).2 c hc).2⟩)]
  rfl

/-! ## Claim theorems -/

/-- C1: the spec's ambiguous scenario — citation `Intro to Graphs` against
the library `Introductory Graph Theory` / `Intro to Graph Algorithms` at
threshold 0.8 — is in fact classified missing by the code: the matcher
already filters out sub-threshold, non-URL-matching items (similarities
0.65 and 0.75, both below 0.8, with no URL data), so the candidate list
is empty, `potential_matches` stays empty, and the citation lands in
`missing_from_zotero` rather than being classified ambiguous. -/
theorem C1_scenario_classified_missing :
    compare_citations
        [ZoteroItem.mk (ZoteroItemData.mk "Introductory Graph Theory" ""),
         ZoteroItem.mk (ZoteroItemData.mk "Intro to Graph Algorithms" "")]
        [{ title := "Intro to Graphs" }] (mkRat 4 5)
      = some (Results.mk [{ title := "Intro to Graphs" }] [] [] (Summary.mk 1 0 1 0)) ∧
    find_matching_zotero_items
        [ZoteroItem.mk (ZoteroItemData.mk "Introductory Graph Theory" ""),
         ZoteroItem.mk (ZoteroItemData.mk "Intro to Graph Algorithms" "")]
        { title := "Intro to Graphs" } (mkRat 4 5) = [] ∧
    similarity_score (normalize_title "Intro to Graphs")
        (normalize_title "Introductory Graph Theory") = mkRat 13 20 ∧
    similarity_score (normalize_title "Intro to Graphs")
        (normalize_title "Intro to Graph Algorithms") = mkRat 3 4 := by
  decide

/-- C2 counterexample: with an empty (for example unsuccessfully loaded)
library and a non-empty citation list, `compare_citations` returns the
empty dictionary, so the input citation is placed in none of the three
result lists and no summary is produced — the invariant does not hold for
an empty library. -/
theorem C2_counterexample_empty_library :
    compare_citations [] [{ title := "Some Quite Real Title" }] (mkRat 4 5) = none := by
  decide

/-- C2 (amended): whenever `compare_citations` actually produces a result
dictionary (which requires a non-empty library and a non-empty citation
list), the three result lists partition the input citations, and the
summary counts equal the three list lengths and the total input count. -/
theorem C2_partition_invariant (items : List ZoteroItem) (cits : List Citation)
    (t : Rat) (r : Results) (h : compare_citations items cits t = some r) :
    (r.missing_from_zotero ++ r.found_in_zotero.map FoundEntry.wikiversity_citation ++
      r.potential_matches.map PotentialEntry.wikiversity_citation).Perm cits ∧
    r.summary.total_wikiversity_citations = cits.length ∧
    r.summary.found_in_zotero = r.found_in_zotero.length ∧
    r.summary.missing_from_zotero = r.missing_from_zotero.length ∧
    r.summary.potential_matches = r.potential_matches.length ∧
    r.found_in_zotero.length + r.missing_from_zotero.length +
      r.potential_matches.length = cits.length := by
  rw [compare_citations_eq items cits t r h]
  dsimp only
  refine ⟨classify_perm items t cits, rfl, rfl, rfl, rfl, ?_⟩
  have hp := (classify_perm items t cits).length_eq
  simp only [List.length_append, List.length_map] at hp
  omega

/-- C2 witness: the invariant at a concrete run — the spec's missing
scenario, `Quantum Computing 101` against a library holding only
`Organic Chemistry`. -/
theorem C2_partition_invariant_witness :
    ((Results.mk [{ title := "Quantum Computing 101" }] [] [] (Summary.mk 1 0 1 0)).missing_from_zotero ++
      (Results.mk [{ title := "Quantum Computing 101" }] [] [] (Summary.mk 1 0 1 0)).found_in_zotero.map FoundEntry.wikiversity_citation ++
      (Results.mk [{ title := "Quantum Computing 101" }] [] [] (Summary.mk 1 0 1 0)).potential_matches.map PotentialEntry.wikiversity_citation).Perm
      [{ title := "Quantum Computing 101" }] ∧
    (Results.mk [{ title := "Quantum Computing 101" }] [] [] (Summary.mk 1 0 1 0)).summary.total_wikiversity_citations =
      ([{ title := "Quantum Computing 101" }] : List Citation).length ∧
    (Results.mk [{ title := "Quantum Computing 101" }] [] [] (Summary.mk 1 0 1 0)).summary.found_in_zotero =
      (Results.mk [{ title := "Quantum Computing 101" }] [] [] (Summary.mk 1 0 1 0)).found_in_zotero.length ∧
    (Results.mk [{ title := "Quantum Computing 101" }] [] [] (Summary.mk 1 0 1 0)).summary.missing_from_zotero =
      (Results.mk [{ title := "Quantum Computing 101" }] [] [] (Summary.mk 1 0 1 0)).missing_from_zotero.length ∧
    (Results.mk [{ title := "Quantum Computing 101" }] [] [] (Summary.mk 1 0 1 0)).summary.potential_matches =
      (Results.mk [{ title := "Quantum Computing 101" }] [] [] (Summary.mk 1 0 1 0)).potential_matches.length ∧
    (Results.mk [{ title := "Quantum Computing 101" }] [] [] (Summary.mk 1 0 1 0)).found_in_zotero.length +
      (Results.mk [{ title := "Quantum Computing 101" }] [] [] (Summary.mk 1 0 1 0)).missing_from_zotero.length +
      (Results.mk [{ title := "Quantum Computing 101" }] [] [] (Summary.mk 1 0 1 0)).potential_matches.length =
      ([{ title := "Quantum Computing 101" }] : List Citation).length :=
  C2_partition_invariant [ZoteroItem.mk (ZoteroItemData.mk "Organic Chemistry" "")]
    [{ title := "Quantum Computing 101" }] (mkRat 4 5)
    (Results.mk [{ title := "Quantum Computing 101" }] [] [] (Summary.mk 1 0 1 0))
    (by decide)

/-- C3 counterexample: with an empty library, a citation whose normalized
title is empty (and which carries a URL) is not classified at all —
`compare_citations` returns the empty dictionary instead of placing it in
`missing_from_zotero`, so the classification does not hold regardless of
the library contents. -/
theorem C3_counterexample_empty_library :
    compare_citations [] [{ title := "", url := "http://example.org/page" }] (mkRat 4 5) = none := by
  decide

/-- C3 (amended): for a citation whose title normalizes to the empty
string, `find_matching_zotero_items` returns the empty candidate list for
every library without the scan producing anything; and whenever
`compare_citations` produces a result at all (non-empty library and
citation list), such a citation is placed in `missing_from_zotero`
whatever its URL is. -/
theorem C3_empty_title_missing (items items2 : List ZoteroItem)
    (cits : List Citation) (cit : Citation) (t : Rat) (r : Results)
    (ht : normalize_title cit.title = "")
    (hr : compare_citations items2 cits t = some r)
    (hmem : cit ∈ cits) :
    find_matching_zotero_items items cit t = [] ∧ cit ∈ r.missing_from_zotero := by
  refine ⟨find_matching_empty_title items cit t ht, ?_⟩
  rw [compare_citations_eq items2 cits t r hr]
  exact classify_empty_title_missing items2 t cit ht cits hmem

/-- C3 witness: a concrete empty-titled citation with a URL, matched
against a one-item library whose item even shares that URL, yields no
candidates and is classified missing. -/
theorem C3_empty_title_missing_witness :
    find_matching_zotero_items
        [ZoteroItem.mk (ZoteroItemData.mk "Some Library Item" "http://example.org/page")]
        { title := "", url := "http://example.org/page" } (mkRat 4 5) = [] ∧
    ({ title := "", url := "http://example.org/page" } : Citation) ∈
      (Results.mk [{ title := "", url := "http://example.org/page" }] [] []
        (Summary.mk 1 0 1 0)).missing_from_zotero :=
  C3_empty_title_missing
    [ZoteroItem.mk (ZoteroItemData.mk "Some Library Item" "http://example.org/page")]
    [ZoteroItem.mk (ZoteroItemData.mk "Some Library Item" "http://example.org/page")]
    [{ title := "", url := "http://example.org/page" }]
    { title := "", url := "http://example.org/page" } (mkRat 4 5)
    (Results.mk [{ title := "", url := "http://example.org/page" }] [] []
      (Summary.mk 1 0 1 0))
    (by decide) (by decide) (by decide)

/-- C4 counterexample: for the pair of empty URL strings the raw strings
are exactly equal (and their similarity is 1, above 0.9), yet the code
leaves `url_match` false because the truthiness guard requires both URLs
non-empty — so equality of the raw strings does not characterize
`url_match` on every pair. -/
theorem C4_counterexample_empty_urls :
    ¬ (urlMatchCalc "" "" = true ↔
        (("" : String) = "" ∨ mkRat 9 10 < similarity_score "" "")) := by
  decide

/-- C4 (amended): `url_match` is true exactly when both raw URL strings
are non-empty and they are exactly equal or their similarity exceeds
0.9. -/
theorem C4_url_match_iff (u v : String) :
    urlMatchCalc u v = true ↔
      u ≠ "" ∧ v ≠ "" ∧ (u = v ∨ mkRat 9 10 < similarity_score u v) := by
  rw [urlMatchCalc]
  by_cases h : u ≠ "" ∧ v ≠ ""
  · rw [if_pos h]
    simp [h.1, h.2]
  · rw [if_neg h]
    simp only [Bool.false_eq_true, false_iff]
    intro hcon
    exact h ⟨hcon.1, hcon.2.1⟩

/-- C5: the template `(double-brace)cite web|title=Example Page|url=http://ex.com|date=2020(double-brace)`
yields exactly one record, with type `web`, title `Example Page`, url
`http://ex.com` and date `2020`; and for every template that yields no
title the record is discarded — `_parse_cite_template` never returns a
record with an empty title, and a regex match whose parse is discarded
contributes zero records to the extraction wherever it occurs in the
match list (with `(double-brace)cite web|url=http://ex.com(double-brace)`
as the concrete instance). -/
theorem C5_cite_template_parse :
    (_extract_cite_templates
        "\x7b\x7bcite web|title=Example Page|url=http://ex.com|date=2020\x7d\x7d").map
      (fun c => (c.type, c.title, c.url, c.date))
      = [("web", "Example Page", "http://ex.com", "2020")] ∧
    (_extract_cite_templates
        "\x7b\x7bcite web|title=Example Page|url=http://ex.com|date=2020\x7d\x7d").length = 1 ∧
    _extract_cite_templates "\x7b\x7bcite web|url=http://ex.com\x7d\x7d" = [] ∧
    (∀ (template : String) (c : Citation),
      _parse_cite_template template = some c → c.title ≠ "") ∧
    (∀ (pre post : List (List Char)) (m : List Char),
      _parse_cite_template (String.mk m) = none →
      (pre ++ m :: post).filterMap (fun m2 => _parse_cite_template (String.mk m2)) =
        (pre ++ post).filterMap (fun m2 => _parse_cite_template (String.mk m2))) := by
  refine ⟨by decide, by decide, by decide, ?_, ?_⟩
  · intro template c h
    rw [_parse_cite_template] at h
    split at h
    · cases h
    · dsimp only at h
      split at h
      · cases h
        assumption
      · cases h
  · intro pre post m h
    rw [List.filterMap_append, List.filterMap_append]
    simp only [List.filterMap_cons, h]

/-- C5 witness: the universal no-titleless-record conjunct applied at the
concrete titled template, whose parse is discharged by evaluation. -/
theorem C5_cite_template_parse_witness :
    ({ type := "web", title := "Example Page", url := "http://ex.com", date := "2020",
       raw_text := "cite web|title=Example Page|url=http://ex.com|date=2020" } : Citation).title ≠ "" :=
  C5_cite_template_parse.2.2.2.1
    "\x7b\x7bcite web|title=Example Page|url=http://ex.com|date=2020\x7d\x7d"
    { type := "web", title := "Example Page", url := "http://ex.com", date := "2020",
      raw_text := "cite web|title=Example Page|url=http://ex.com|date=2020" }
    (by decide)

/-- C6: on a concrete text block the loose text parser takes the stripped
text before the first period as the title and the first URL-shaped
substring as the url, but stores `19` — the text of the capturing group
of `(19|20)\d(2)` returned by `re.findall` — as the date instead of the
full four-digit year `1999`. -/
theorem C6_loose_text_date_group :
    _parse_citation_text
        "Understanding Graph Theory. Available at http://ex.com/a and published 1999."
        "https://en.wikiversity.org/wiki/Example"
      = { title := "Understanding Graph Theory", url := "http://ex.com/a", date := "19",
          raw_text := "Understanding Graph Theory. Available at http://ex.com/a and published 1999.",
          source_url := "https://en.wikiversity.org/wiki/Example" } := by
  decide

/-- C7 counterexample: `SequenceMatcher.ratio` is not symmetric — on the
pair `BRADY` / `BYRD` the two argument orders give 2/3 and 4/9. -/
theorem C7_counterexample_asymmetric :
    similarity_score "BRADY" "BYRD" ≠ similarity_score "BYRD" "BRADY" := by
  decide

/-- C7 (amended): the similarity score is symmetric when the two strings
are equal or either is empty; in general the greedy matching-block
decomposition depends on the argument order, so full symmetry fails. -/
theorem C7_symmetric_restricted (a b : String) (h : a = b ∨ a = "" ∨ b = "") :
    similarity_score a b = similarity_score b a := by
  rcases h with rfl | h | h
  · rfl
  · subst h
    rw [similarity_score, similarity_score,
      show ("" : String).data = [] from rfl]
    exact ratio_nil_comm b.data
  · subst h
    rw [similarity_score, similarity_score,
      show ("" : String).data = [] from rfl]
    exact (ratio_nil_comm a.data).symm

/-- C7 witness: symmetry at a concrete pair with an empty side. -/
theorem C7_symmetric_restricted_witness :
    similarity_score "" "graph theory" = similarity_score "graph theory" "" :=
  C7_symmetric_restricted "" "graph theory" (Or.inr (Or.inl rfl))

/-- C8: `normalize_title` is idempotent — normalizing an already
normalized title changes nothing. -/
theorem C8_normalize_idempotent (s : String) :
    normalize_title (normalize_title s) = normalize_title s := by
  rw [normalize_title, normalize_title,
    show (String.mk (normalizeL s.data)).data = normalizeL s.data from rfl,
    normalizeL_idem]

/-- C9 counterexample: invoking the `citation_comparator.py` entry point
with no credentials set prints the human-readable diagnostic but the
process exits with status 0, not a non-zero status, because the
`if __name__` footer discards the return value of `main()`. -/
theorem C9_counterexample_exit_zero :
    citation_comparator_main (Env.mk none none)
      = (0, [Step.msg "Please set your Zotero credentials in the script or as environment variables:",
             Step.msg "ZOTERO_USER_ID and ZOTERO_API_KEY"]) := by
  decide

/-- C9 (amended): in `run_comparison.py`, missing credentials exit with
status 1, a readable diagnostic and no network step; an empty configured
page list also exits with status 1 and a diagnostic, but only after the
Zotero library has already been loaded over the network (the network step
precedes the diagnostic in the trace); the `citation_comparator.py` entry
point prints its credential diagnostic without any network step but exits
with status 0. -/
theorem C9_config_error_behavior (env1 env2 : Env) (urls : List String)
    (h1 : (credFalsy env1.zotero_user_id || credFalsy env1.zotero_api_key) = true)
    (h2 : (credFalsy env2.zotero_user_id || credFalsy env2.zotero_api_key) = false)
    (h3 : env1.zotero_user_id.getD "YOUR_USER_ID_HERE" = "YOUR_USER_ID_HERE" ∨
          env1.zotero_api_key.getD "YOUR_API_KEY_HERE" = "YOUR_API_KEY_HERE") :
    run_comparison_main env1 urls =
      (1, [Step.msg "❌ Error: Missing Zotero credentials",
           Step.msg "Please set ZOTERO_USER_ID and ZOTERO_API_KEY environment variables"]) ∧
    run_comparison_main env2 [] =
      (1, [Step.msg "🚀 Starting Wikiversity-Zotero comparison...",
           Step.msg "📚 Loading Zotero library...",
           Step.net "zotero.everything(zotero.items())",
           Step.msg "🌐 Extracting Wikiversity citations...",
           Step.msg "❌ Error: No Wikiversity URLs configured"]) ∧
    citation_comparator_main env1 =
      (0, [Step.msg "Please set your Zotero credentials in the script or as environment variables:",
           Step.msg "ZOTERO_USER_ID and ZOTERO_API_KEY"]) := by
  refine ⟨?_, ?_, ?_⟩
  · simp [run_comparison_main, h1]
  · simp [run_comparison_main, h2]
  · simp only [citation_comparator_main]
    rw [if_pos h3]

/-- C9 witness: the three behaviors at concrete environments — no
credentials at all, and full credentials with an empty page list. -/
theorem C9_config_error_behavior_witness :
    run_comparison_main (Env.mk none none) ["https://en.wikiversity.org/wiki/Physics"] =
      (1, [Step.msg "❌ Error: Missing Zotero credentials",
           Step.msg "Please set ZOTERO_USER_ID and ZOTERO_API_KEY environment variables"]) ∧
    run_comparison_main (Env.mk (some "uid123") (some "key456")) [] =
      (1, [Step.msg "🚀 Starting Wikiversity-Zotero comparison...",
           Step.msg "📚 Loading Zotero library...",
           Step.net "zotero.everything(zotero.items())",
           Step.msg "🌐 Extracting Wikiversity citations...",
           Step.msg "❌ Error: No Wikiversity URLs configured"]) ∧
    citation_comparator_main (Env.mk none none) =
      (0, [Step.msg "Please set your Zotero credentials in the script or as environment variables:",
           Step.msg "ZOTERO_USER_ID and ZOTERO_API_KEY"]) :=
  C9_config_error_behavior (Env.mk none none) (Env.mk (some "uid123") (some "key456"))
    ["https://en.wikiversity.org/wiki/Physics"] (by decide) (by decide) (by decide)

/-- C10: every candidate returned by `find_matching_zotero_items` already
satisfies the threshold-or-URL check, and consequently the
`potential_matches` list of every result `compare_citations` produces is
empty — the ambiguous branch of the reconciler is unreachable. -/
theorem C10_candidates_filtered_no_potential (items : List ZoteroItem)
    (cits : List Citation) (cit : Citation) (t : Rat) (r : Results) (m : MatchCandidate)
    (hm : m ∈ find_matching_zotero_items items cit t)
    (hr : compare_citations items cits t = some r) :
    (t ≤ m.title_similarity ∨ m.url_match = true) ∧ r.potential_matches = [] := by
  refine ⟨find_matching_mem items cit t m hm, ?_⟩
  rw [compare_citations_eq items cits t r hr]
  exact classify_potential_nil items t cits

/-- C10 witness: a concrete match — identical titles give similarity 1 —
clears the check, and the concrete result has no potential matches. -/
theorem C10_candidates_filtered_no_potential_witness :
    (mkRat 4 5 ≤ (MatchCandidate.mk (ZoteroItem.mk (ZoteroItemData.mk "Sample Shared Title" "")) 1 false).title_similarity ∨
      (MatchCandidate.mk (ZoteroItem.mk (ZoteroItemData.mk "Sample Shared Title" "")) 1 false).url_match = true) ∧
    (Results.mk []
      [FoundEntry.mk { title := "Sample Shared Title" }
        (MatchCandidate.mk (ZoteroItem.mk (ZoteroItemData.mk "Sample Shared Title" "")) 1 false)]
      [] (Summary.mk 1 1 0 0)).potential_matches = [] :=
  C10_candidates_filtered_no_potential
    [ZoteroItem.mk (ZoteroItemData.mk "Sample Shared Title" "")]
    [{ title := "Sample Shared Title" }] { title := "Sample Shared Title" } (mkRat 4 5)
    (Results.mk []
      [FoundEntry.mk { title := "Sample Shared Title" }
        (MatchCandidate.mk (ZoteroItem.mk (ZoteroItemData.mk "Sample Shared Title" "")) 1 false)]
      [] (Summary.mk 1 1 0 0))
    (MatchCandidate.mk (ZoteroItem.mk (ZoteroItemData.mk "Sample Shared Title" "")) 1 false)
    (by decide) (by decide)
